import Mathlib

/-!
Shallow embedding of `crates/router/src/types/api/payments.rs` from the
hyperswitch router: the status reconciliation reducer, the mandate intent
classifier, the payment identifier variant with its narrowing operation,
the connector capability model, the card response projection and the
payment list constraints, together with theorems settling the claims of
the specification against this code.
-/

set_option autoImplicit false

namespace Hyperswitch

/-- Modelled from the spec: `enums::AttemptStatus` lives in the external
`enums` crate, absent from this slice; its member list is taken from the
closed set in spec section 3, whose names agree with the exhaustive match
in `impl From<enums::AttemptStatus> for enums::IntentStatus` in the
source file. -/
inductive AttemptStatus where
  | Charged
  | AutoRefunded
  | ConfirmationAwaited
  | PaymentMethodAwaited
  | Authorized
  | PendingVbv
  | PartialCharged
  | Started
  | VbvSuccessful
  | Authorizing
  | CodInitiated
  | VoidInitiated
  | CaptureInitiated
  | Pending
  | AuthenticationFailed
  | AuthorizationFailed
  | VoidFailed
  | JuspayDeclined
  | CaptureFailed
  | Failure
  | Voided
  deriving DecidableEq, Repr

/-- Modelled from the spec: `enums::IntentStatus` lives in the external
`enums` crate, absent from this slice; its member list is taken from spec
section 3, whose names agree with the right-hand sides of the match in
`impl From<enums::AttemptStatus> for enums::IntentStatus`. -/
inductive IntentStatus where
  | Succeeded
  | RequiresConfirmation
  | RequiresPaymentMethod
  | RequiresCapture
  | RequiresCustomerAction
  | Processing
  | Failed
  | Cancelled
  deriving DecidableEq, Repr

/-- The status reconciliation reducer:
`impl From<enums::AttemptStatus> for enums::IntentStatus` in the source. -/
def IntentStatus.fromAttemptStatus : AttemptStatus → IntentStatus
  | .Charged | .AutoRefunded => .Succeeded
  | .ConfirmationAwaited => .RequiresConfirmation
  | .PaymentMethodAwaited => .RequiresPaymentMethod
  | .Authorized => .RequiresCapture
  | .PendingVbv => .RequiresCustomerAction
  | .PartialCharged
  | .Started
  | .VbvSuccessful
  | .Authorizing
  | .CodInitiated
  | .VoidInitiated
  | .CaptureInitiated
  | .Pending => .Processing
  | .AuthenticationFailed
  | .AuthorizationFailed
  | .VoidFailed
  | .JuspayDeclined
  | .CaptureFailed
  | .Failure => .Failed
  | .Voided => .Cancelled

/-- `pub enum MandateTxnType` from the source. -/
inductive MandateTxnType where
  | NewMandateTxn
  | RecurringMandateTxn
  deriving DecidableEq, Repr

/-- Model of `masking::Secret` (external collaborator): a transparent
wrapper whose only accessor is `peek`. -/
structure Secret (α : Type) where
  peek : α
  deriving DecidableEq, Repr

/-- `pub enum PaymentIdType` from the source: three variants, each
carrying a string. -/
inductive PaymentIdType where
  | PaymentIntentId (id : String)
  | ConnectorTransactionId (id : String)
  | PaymentTxnId (id : String)
  deriving DecidableEq, Repr

/-- `errors::ValidationError` is in the external `errors` module; the one
kind used by this file, per spec section 7, is
`IncorrectValueProvided with field_name`. -/
inductive ValidationError where
  | IncorrectValueProvided (field_name : String)
  deriving DecidableEq, Repr

/-- Model of an `error_stack::Report`: the error plus the printable
context messages attached with `attach_printable`. -/
structure Report (E : Type) where
  error : E
  printables : List String
  deriving DecidableEq, Repr

/-- `PaymentIdType::get_payment_intent_id` from the source: `Ok` with the
inner string on `PaymentIntentId`, otherwise a `ValidationError` report.
`CustomResult` is `Result` with an `error_stack::Report` on the error
side. -/
def PaymentIdType.get_payment_intent_id :
    PaymentIdType → Except (Report ValidationError) String
  | .PaymentIntentId id => .ok id
  | .ConnectorTransactionId _ | .PaymentTxnId _ =>
      .error
        { error := .IncorrectValueProvided "payment_id"
          printables :=
            ["Expected payment intent ID but got connector transaction ID"] }

/-- `impl Default for PaymentIdType` from the source:
`PaymentIntentId(Default::default())`, where the `String` default is the
empty string. -/
def PaymentIdType.default : PaymentIdType := .PaymentIntentId ""

/-- Minimal model of a `serde_json` value, enough for the wire shapes
this file serializes. -/
inductive Json where
  | str (s : String)
  | num (n : Int)
  | bool (b : Bool)
  | null
  | arr (xs : List Json)
  | obj (fields : List (String × Json))

/-- serde serialization of `PaymentIdType`: a derived externally tagged
enum of newtype variants encodes as a single-key object mapping the
variant name to the payload string. -/
def PaymentIdType.toJson : PaymentIdType → Json
  | .PaymentIntentId id => .obj [("PaymentIntentId", .str id)]
  | .ConnectorTransactionId id => .obj [("ConnectorTransactionId", .str id)]
  | .PaymentTxnId id => .obj [("PaymentTxnId", .str id)]

/-- serde deserialization of `PaymentIdType`: accepts exactly the
single-key externally tagged objects produced by `PaymentIdType.toJson`,
anything else is a deserialization error. -/
def PaymentIdType.fromJson : Json → Option PaymentIdType
  | .obj [("PaymentIntentId", .str id)] => some (.PaymentIntentId id)
  | .obj [("ConnectorTransactionId", .str id)] =>
      some (.ConnectorTransactionId id)
  | .obj [("PaymentTxnId", .str id)] => some (.PaymentTxnId id)
  | _ => none

/-- `pub struct CCard` from the source. -/
structure CCard where
  card_number : Secret String
  card_exp_month : Secret String
  card_exp_year : Secret String
  card_holder_name : Secret String
  card_cvc : Secret String
  deriving DecidableEq, Repr

/-- `pub struct CCardResponse` from the source: only the last four
digits of the card number plus the expiry month and year; it has no
field for the full number or the holder name. -/
structure CCardResponse where
  last4 : String
  exp_month : String
  exp_year : String
  deriving DecidableEq, Repr

/-- `impl From<CCard> for CCardResponse` from the source. Rust slices
`card_number[card_number_length - 4 .. card_number_length]`; when the
length is below four the index arithmetic on `usize` underflows and the
conversion panics, modelled here as `none`. Indexing is by character,
which agrees with the byte-based Rust slice on the ASCII digit strings
card numbers hold. -/
def CCardResponse.fromCard (card : CCard) : Option CCardResponse :=
  if 4 ≤ card.card_number.peek.data.length then
    some { last4 := String.mk (card.card_number.peek.data.drop
                      (card.card_number.peek.data.length - 4))
           exp_month := card.card_exp_month.peek
           exp_year := card.card_exp_year.peek }
  else none

/-- The last four characters of a string, stated independently of the
slicing arithmetic of the source: reverse, take four, reverse. -/
def lastFourChars (s : String) : String :=
  String.mk (s.data.reverse.take 4).reverse

/-- The sample card built by `payments_test::card` in the source test
module. -/
def cardExample : CCard where
  card_number := ⟨"1234432112344321"⟩
  card_exp_month := ⟨"12"⟩
  card_exp_year := ⟨"99"⟩
  card_holder_name := ⟨"JohnDoe"⟩
  card_cvc := ⟨"123"⟩

/-- `pub struct PayLaterData` from the source. -/
structure PayLaterData where
  billing_email : String
  country : String
  deriving DecidableEq, Repr

/-- `pub enum PaymentMethod` from the source. -/
inductive PaymentMethod where
  | Card (card : CCard)
  | BankTransfer
  | Wallet
  | PayLater (data : PayLaterData)
  | Paypal
  deriving DecidableEq, Repr

/-- `pub enum PaymentMethodDataResponse` from the source. -/
inductive PaymentMethodDataResponse where
  | Card (card : CCardResponse)
  | BankTransfer
  | Wallet
  | PayLater (data : PayLaterData)
  | Paypal
  deriving DecidableEq, Repr

/-- `impl From<PaymentMethod> for PaymentMethodDataResponse` from the
source; `none` propagates the panic of the card projection. -/
def PaymentMethodDataResponse.fromPaymentMethod :
    PaymentMethod → Option PaymentMethodDataResponse
  | .Card card => (CCardResponse.fromCard card).map .Card
  | .BankTransfer => some .BankTransfer
  | .PayLater data => some (.PayLater data)
  | .Wallet => some .Wallet
  | .Paypal => some .Paypal

/-- Model of `time::PrimitiveDateTime` (external): carried opaquely;
its ISO-8601 textual encoding is all this layer observes. -/
structure PrimitiveDateTime where
  iso8601 : String
  deriving DecidableEq, Repr

/-- `pub enum AcceptanceType` from the source; `Offline` is the
`#[default]` variant. -/
inductive AcceptanceType where
  | Online
  | Offline
  deriving DecidableEq, Repr

/-- `pub struct OnlineMandate` from the source. -/
structure OnlineMandate where
  ip_address : Secret String
  user_agent : String
  deriving DecidableEq, Repr

/-- `pub struct CustomerAcceptance` from the source. -/
structure CustomerAcceptance where
  acceptance_type : AcceptanceType
  accepted_at : Option PrimitiveDateTime
  online : Option OnlineMandate
  deriving DecidableEq, Repr

/-- `pub struct MandateData` from the source. -/
structure MandateData where
  customer_acceptance : CustomerAcceptance
  deriving DecidableEq, Repr

/-- `pub struct AddressDetails` from the source. -/
structure AddressDetails where
  city : Option String
  country : Option String
  line1 : Option (Secret String)
  line2 : Option (Secret String)
  line3 : Option (Secret String)
  zip : Option (Secret String)
  state : Option (Secret String)
  first_name : Option (Secret String)
  last_name : Option (Secret String)
  deriving DecidableEq, Repr

/-- `pub struct PhoneDetails` from the source. -/
structure PhoneDetails where
  number : Option (Secret String)
  country_code : Option String
  deriving DecidableEq, Repr

/-- `pub struct Address` from the source. -/
structure Address where
  address : Option AddressDetails
  phone : Option PhoneDetails
  deriving DecidableEq, Repr

/-- Model of `enums::CaptureMethod` (external enum, carried opaquely). -/
structure CaptureMethod where
  deriving DecidableEq, Repr

/-- Model of `enums::FutureUsage` (external enum, carried opaquely). -/
structure FutureUsage where
  deriving DecidableEq, Repr

/-- Model of `enums::AuthenticationType` (external enum, carried
opaquely). -/
structure AuthenticationType where
  deriving DecidableEq, Repr

/-- Model of `enums::PaymentMethodType` (external enum, carried
opaquely). -/
structure PaymentMethodType where
  deriving DecidableEq, Repr

/-- Model of `types::BrowserInformation` (external, carried opaquely). -/
structure BrowserInformation where
  deriving DecidableEq, Repr

/-- Model of `RefundResponse` (external, carried opaquely). -/
structure RefundResponse where
  deriving DecidableEq, Repr

/-- `pub struct PaymentsRequest` from the source. -/
structure PaymentsRequest where
  payment_id : Option PaymentIdType
  merchant_id : Option String
  amount : Option Int
  currency : Option String
  capture_method : Option CaptureMethod
  amount_to_capture : Option Int
  capture_on : Option PrimitiveDateTime
  confirm : Option Bool
  customer_id : Option String
  email : Option (Secret String)
  name : Option (Secret String)
  phone : Option (Secret String)
  phone_country_code : Option String
  off_session : Option Bool
  description : Option String
  return_url : Option String
  setup_future_usage : Option FutureUsage
  authentication_type : Option AuthenticationType
  payment_method_data : Option PaymentMethod
  payment_method : Option PaymentMethodType
  payment_token : Option Int
  shipping : Option Address
  billing : Option Address
  browser_info : Option BrowserInformation
  statement_descriptor_name : Option String
  statement_descriptor_suffix : Option String
  metadata : Option Json
  client_secret : Option String
  mandate_data : Option MandateData
  mandate_id : Option String

/-- The derived `Default` for `PaymentsRequest`: every field `None`. -/
def PaymentsRequest.default : PaymentsRequest where
  payment_id := none
  merchant_id := none
  amount := none
  currency := none
  capture_method := none
  amount_to_capture := none
  capture_on := none
  confirm := none
  customer_id := none
  email := none
  name := none
  phone := none
  phone_country_code := none
  off_session := none
  description := none
  return_url := none
  setup_future_usage := none
  authentication_type := none
  payment_method_data := none
  payment_method := none
  payment_token := none
  shipping := none
  billing := none
  browser_info := none
  statement_descriptor_name := none
  statement_descriptor_suffix := none
  metadata := none
  client_secret := none
  mandate_data := none
  mandate_id := none

/-- `PaymentsRequest::is_mandate` from the source: the mandate intent
classifier over the presence of `mandate_data` and `mandate_id`. -/
def PaymentsRequest.is_mandate (r : PaymentsRequest) : Option MandateTxnType :=
  match r.mandate_data, r.mandate_id with
  | none, none => none
  | _, some _ => some .RecurringMandateTxn
  | some _, _ => some .NewMandateTxn

/-- `pub enum NextActionType` from the source. -/
inductive NextActionType where
  | RedirectToUrl
  | DisplayQrCode
  | InvokeSdkClient
  | TriggerApi
  deriving DecidableEq, Repr

/-- `pub struct NextAction` from the source. -/
structure NextAction where
  next_action_type : NextActionType
  redirect_to_url : Option String
  deriving DecidableEq, Repr

/-- Modelled from the spec: the `Default` variant of the external enum
`enums::IntentStatus` is not visible in this slice and the spec does not
name it; it is fixed here as `Processing`. No theorem below depends on
this choice. -/
def IntentStatus.default : IntentStatus := .Processing

/-- `pub struct PaymentsResponse` from the source. -/
structure PaymentsResponse where
  payment_id : Option String
  merchant_id : Option String
  status : IntentStatus
  amount : Int
  amount_capturable : Option Int
  amount_received : Option Int
  client_secret : Option (Secret String)
  created : Option PrimitiveDateTime
  currency : String
  customer_id : Option String
  description : Option String
  refunds : Option (List RefundResponse)
  mandate_id : Option String
  mandate_data : Option MandateData
  setup_future_usage : Option FutureUsage
  off_session : Option Bool
  capture_on : Option PrimitiveDateTime
  capture_method : Option CaptureMethod
  payment_method : Option PaymentMethodType
  payment_method_data : Option PaymentMethodDataResponse
  payment_token : Option Int
  shipping : Option Address
  billing : Option Address
  metadata : Option Json
  email : Option (Secret String)
  name : Option (Secret String)
  phone : Option (Secret String)
  return_url : Option String
  authentication_type : Option AuthenticationType
  statement_descriptor_name : Option String
  statement_descriptor_suffix : Option String
  next_action : Option NextAction
  cancellation_reason : Option String
  error_code : Option String
  error_message : Option String

/-- The derived `Default` for `PaymentsResponse`: every `Option` field
`None`, numeric fields zero, strings empty, and the external default for
the status. -/
def PaymentsResponse.default : PaymentsResponse where
  payment_id := none
  merchant_id := none
  status := IntentStatus.default
  amount := 0
  amount_capturable := none
  amount_received := none
  client_secret := none
  created := none
  currency := ""
  customer_id := none
  description := none
  refunds := none
  mandate_id := none
  mandate_data := none
  setup_future_usage := none
  off_session := none
  capture_on := none
  capture_method := none
  payment_method := none
  payment_method_data := none
  payment_token := none
  shipping := none
  billing := none
  metadata := none
  email := none
  name := none
  phone := none
  return_url := none
  authentication_type := none
  statement_descriptor_name := none
  statement_descriptor_suffix := none
  next_action := none
  cancellation_reason := none
  error_code := none
  error_message := none

/-- `impl From<PaymentsRequest> for PaymentsResponse` from the source:
`payment_id` keeps the inner string only for the `PaymentIntentId`
variant, the listed fields are copied, the rest come from the default;
`none` propagates the panic of the card projection inside the
`payment_method_data` mapping. -/
def PaymentsResponse.fromRequest (item : PaymentsRequest) :
    Option PaymentsResponse :=
  (match item.payment_method_data with
    | none => some none
    | some pm =>
        (PaymentMethodDataResponse.fromPaymentMethod pm).map some).bind fun pmd =>
  some { PaymentsResponse.default with
    payment_id := match item.payment_id with
      | some (.PaymentIntentId id) => some id
      | _ => none
    merchant_id := item.merchant_id
    setup_future_usage := item.setup_future_usage
    off_session := item.off_session
    shipping := item.shipping
    billing := item.billing
    metadata := item.metadata
    capture_method := item.capture_method
    payment_method := item.payment_method
    capture_on := item.capture_on
    payment_method_data := pmd
    email := item.email
    name := item.name
    phone := item.phone
    payment_token := item.payment_token
    return_url := item.return_url
    authentication_type := item.authentication_type
    statement_descriptor_name := item.statement_descriptor_name
    statement_descriptor_suffix := item.statement_descriptor_suffix
    mandate_data := item.mandate_data }

/-- `pub struct PaymentsRetrieveRequest` from the source. -/
structure PaymentsRetrieveRequest where
  resource_id : PaymentIdType
  merchant_id : Option String
  force_sync : Bool
  param : Option String
  connector : Option String
  deriving DecidableEq, Repr

/-- `impl From<PaymentsRetrieveRequest> for PaymentsResponse` from the
source: `payment_id` keeps the inner string only for the
`PaymentIntentId` variant of `resource_id`; everything else but the
merchant id comes from the default. -/
def PaymentsResponse.fromRetrieveRequest (item : PaymentsRetrieveRequest) :
    PaymentsResponse :=
  { PaymentsResponse.default with
    payment_id := match item.resource_id with
      | .PaymentIntentId id => some id
      | _ => none
    merchant_id := item.merchant_id }

/-- The four zero-data operation marker structs from the source:
`Authorize`, `PCapture`, `PSync`, `Void`. -/
inductive OperationMarker where
  | Authorize
  | PCapture
  | PSync
  | Void
  deriving DecidableEq, Repr

/-- Tags for the canonical per-operation payload types of the external
`types` module, used to record which request and response shape a
capability binds to. -/
inductive PayloadType where
  | PaymentsRequestData
  | PaymentsResponseData
  | PaymentsRequestSyncData
  | PaymentRequestCancelData
  | PaymentsRequestCaptureData
  deriving DecidableEq, Repr

/-- Modelled from the spec: the generic contract
`api::ConnectorIntegration` over an operation marker and a request and
response payload type, and the common `ConnectorCommon` identity
capability, live outside this slice. A connector implementation is
modelled by the set of (operation, request, response) capability triples
it declares and whether it implements the common identity capability. -/
structure Connector where
  integrates : OperationMarker → PayloadType → PayloadType → Bool
  common : Bool

/-- `pub trait PaymentAuthorize: api::ConnectorIntegration<Authorize,
types::PaymentsRequestData, types::PaymentsResponseData>` from the
source. -/
def PaymentAuthorize (c : Connector) : Prop :=
  c.integrates .Authorize .PaymentsRequestData .PaymentsResponseData = true

/-- `pub trait PaymentSync: api::ConnectorIntegration<PSync,
types::PaymentsRequestSyncData, types::PaymentsResponseData>` from the
source. -/
def PaymentSync (c : Connector) : Prop :=
  c.integrates .PSync .PaymentsRequestSyncData .PaymentsResponseData = true

/-- `pub trait PaymentVoid: api::ConnectorIntegration<Void,
types::PaymentRequestCancelData, types::PaymentsResponseData>` from the
source. -/
def PaymentVoid (c : Connector) : Prop :=
  c.integrates .Void .PaymentRequestCancelData .PaymentsResponseData = true

/-- `pub trait PaymentCapture: api::ConnectorIntegration<PCapture,
types::PaymentsRequestCaptureData, types::PaymentsResponseData>` from
the source. -/
def PaymentCapture (c : Connector) : Prop :=
  c.integrates .PCapture .PaymentsRequestCaptureData .PaymentsResponseData = true

/-- The common connector identity capability `ConnectorCommon`
(external), per spec section 4.1. -/
def ConnectorCommon (c : Connector) : Prop :=
  c.common = true

/-- `pub trait Payment: ConnectorCommon + PaymentAuthorize + PaymentSync
+ PaymentCapture + PaymentVoid` from the source: the aggregate payment
capability. -/
def Payment (c : Connector) : Prop :=
  ConnectorCommon c ∧ PaymentAuthorize c ∧ PaymentSync c ∧
    PaymentCapture c ∧ PaymentVoid c

/-- `pub struct PaymentListConstraints` from the source. -/
structure PaymentListConstraints where
  customer_id : Option String
  starting_after : Option String
  ending_before : Option String
  limit : Int
  created : Option PrimitiveDateTime
  created_lt : Option PrimitiveDateTime
  created_gt : Option PrimitiveDateTime
  created_lte : Option PrimitiveDateTime
  created_gte : Option PrimitiveDateTime
  deriving DecidableEq, Repr

/-- `fn default_limit() -> i64` from the source. -/
def default_limit : Int := 10

/-- First value bound to a key in a serialized object. -/
def findField (key : String) : List (String × Json) → Option Json
  | [] => none
  | (k, v) :: rest => if k = key then some v else findField key rest

/-- The serialized field names `PaymentListConstraints` declares,
including the `created.lt` style renames of the range filters. -/
def paymentListConstraintsKeys : List String :=
  ["customer_id", "starting_after", "ending_before", "limit",
   "created", "created.lt", "created.gt", "created.lte", "created.gte"]

/-- Parse an optional plain string field: absence gives `None`, a JSON
string is accepted, any other shape is a type error. -/
def parseOptString : Option Json → Option (Option String)
  | none => some none
  | some (.str s) => some (some s)
  | some _ => none

/-- Parse a field serialized with `custom_serde::iso8601::option` and
`serde(default)`: absence and explicit null give `None`, an ISO-8601
text gives a timestamp, any other shape is a type error. -/
def parseOptDateTime : Option Json → Option (Option PrimitiveDateTime)
  | none => some none
  | some .null => some none
  | some (.str s) => some (some ⟨s⟩)
  | some _ => none

/-- Parse the `limit` field, declared
`serde(default = "default_limit")`: absence yields `default_limit`, a
JSON integer is accepted, any other shape is a type error. -/
def parseLimit : Option Json → Option Int
  | none => some default_limit
  | some (.num n) => some n
  | some _ => none

/-- serde `Deserialize` for `PaymentListConstraints`
(`deny_unknown_fields`): every key of the input object must be a
declared field name, duplicate keys are rejected, and each field is
parsed by its declared shape with its declared default. -/
def deserializePaymentListConstraints (fields : List (String × Json)) :
    Option PaymentListConstraints :=
  if (fields.map Prod.fst).Nodup ∧
      ∀ kv ∈ fields, kv.1 ∈ paymentListConstraintsKeys then
    (parseOptString (findField "customer_id" fields)).bind fun customer_id =>
    (parseOptString (findField "starting_after" fields)).bind fun starting_after =>
    (parseOptString (findField "ending_before" fields)).bind fun ending_before =>
    (parseLimit (findField "limit" fields)).bind fun limit =>
    (parseOptDateTime (findField "created" fields)).bind fun created =>
    (parseOptDateTime (findField "created.lt" fields)).bind fun created_lt =>
    (parseOptDateTime (findField "created.gt" fields)).bind fun created_gt =>
    (parseOptDateTime (findField "created.lte" fields)).bind fun created_lte =>
    (parseOptDateTime (findField "created.gte" fields)).bind fun created_gte =>
    some { customer_id, starting_after, ending_before, limit, created,
           created_lt, created_gt, created_lte, created_gte }
  else none

/-- A card whose number has fewer than four characters, for exercising
the panic branch of the card projection. -/
def shortCardExample : CCard where
  card_number := ⟨"123"⟩
  card_exp_month := ⟨"12"⟩
  card_exp_year := ⟨"99"⟩
  card_holder_name := ⟨"JohnDoe"⟩
  card_cvc := ⟨"123"⟩

/-- A request carrying only a `mandate_id`, for exercising the
recurring-mandate branch of the classifier. -/
def mandateReqExample : PaymentsRequest :=
  { PaymentsRequest.default with mandate_id := some "mandate_1" }

/-- A retrieve request addressed by payment intent id. -/
def retrieveReqExample : PaymentsRetrieveRequest where
  resource_id := .PaymentIntentId "pay_123"
  merchant_id := none
  force_sync := false
  param := none
  connector := none

/-! ## Helper lemmas -/

/-- Dropping all but the last four elements is taking four from the
reversed list, reversed back. -/
theorem drop_length_sub_four (l : List Char) :
    l.drop (l.length - 4) = (l.reverse.take 4).reverse :=
  List.rtake_eq_reverse_take_reverse l 4

/-- Evaluation of the card projection on a long enough card number. -/
theorem fromCard_eval (card : CCard) (h : 4 ≤ card.card_number.peek.length) :
    CCardResponse.fromCard card =
      some { last4 := lastFourChars card.card_number.peek
             exp_month := card.card_exp_month.peek
             exp_year := card.card_exp_year.peek } := by
  unfold CCardResponse.fromCard
  rw [if_pos (show 4 ≤ card.card_number.peek.data.length from h)]
  unfold lastFourChars
  rw [drop_length_sub_four]

/-- A key that is not among the keys of a serialized object is not
found. -/
theorem findField_eq_none (key : String) (fields : List (String × Json))
    (h : key ∉ fields.map Prod.fst) : findField key fields = none := by
  induction fields with
  | nil => rfl
  | cons kv rest ih =>
    obtain ⟨k, v⟩ := kv
    simp only [List.map_cons, List.mem_cons, not_or] at h
    unfold findField
    rw [if_neg fun he => h.1 he.symm]
    exact ih h.2

/-! ## Claim theorems -/

/-- C1: for every member of Attempt Status the status reconciliation
reducer is defined and returns exactly the Intent Status of the spec
table: Charged and AutoRefunded map to Succeeded; ConfirmationAwaited to
RequiresConfirmation; PaymentMethodAwaited to RequiresPaymentMethod;
Authorized to RequiresCapture; PendingVbv to RequiresCustomerAction;
PartialCharged, Started, VbvSuccessful, Authorizing, CodInitiated,
VoidInitiated, CaptureInitiated and Pending to Processing;
AuthenticationFailed, AuthorizationFailed, VoidFailed, JuspayDeclined,
CaptureFailed and Failure to Failed; Voided to Cancelled. -/
theorem reduce_matches_spec_table :
    IntentStatus.fromAttemptStatus .Charged = .Succeeded ∧
    IntentStatus.fromAttemptStatus .AutoRefunded = .Succeeded ∧
    IntentStatus.fromAttemptStatus .ConfirmationAwaited = .RequiresConfirmation ∧
    IntentStatus.fromAttemptStatus .PaymentMethodAwaited = .RequiresPaymentMethod ∧
    IntentStatus.fromAttemptStatus .Authorized = .RequiresCapture ∧
    IntentStatus.fromAttemptStatus .PendingVbv = .RequiresCustomerAction ∧
    IntentStatus.fromAttemptStatus .PartialCharged = .Processing ∧
    IntentStatus.fromAttemptStatus .Started = .Processing ∧
    IntentStatus.fromAttemptStatus .VbvSuccessful = .Processing ∧
    IntentStatus.fromAttemptStatus .Authorizing = .Processing ∧
    IntentStatus.fromAttemptStatus .CodInitiated = .Processing ∧
    IntentStatus.fromAttemptStatus .VoidInitiated = .Processing ∧
    IntentStatus.fromAttemptStatus .CaptureInitiated = .Processing ∧
    IntentStatus.fromAttemptStatus .Pending = .Processing ∧
    IntentStatus.fromAttemptStatus .AuthenticationFailed = .Failed ∧
    IntentStatus.fromAttemptStatus .AuthorizationFailed = .Failed ∧
    IntentStatus.fromAttemptStatus .VoidFailed = .Failed ∧
    IntentStatus.fromAttemptStatus .JuspayDeclined = .Failed ∧
    IntentStatus.fromAttemptStatus .CaptureFailed = .Failed ∧
    IntentStatus.fromAttemptStatus .Failure = .Failed ∧
    IntentStatus.fromAttemptStatus .Voided = .Cancelled := by
  decide

/-- C2: the mandate intent classifier returns `none` when neither
`mandate_data` nor `mandate_id` is present, `NewMandateTxn` when only
`mandate_data` is present, and `RecurringMandateTxn` whenever
`mandate_id` is present, regardless of `mandate_data`. -/
theorem is_mandate_truth_table (r : PaymentsRequest) :
    (r.mandate_data = none ∧ r.mandate_id = none →
      r.is_mandate = none) ∧
    (r.mandate_data ≠ none ∧ r.mandate_id = none →
      r.is_mandate = some MandateTxnType.NewMandateTxn) ∧
    (r.mandate_id ≠ none →
      r.is_mandate = some MandateTxnType.RecurringMandateTxn) := by
  rcases hd : r.mandate_data with _ | d <;>
    rcases hi : r.mandate_id with _ | i <;>
      simp [PaymentsRequest.is_mandate, hd, hi]

/-- Witness for C2: a request holding only a mandate id classifies as a
recurring mandate transaction. -/
theorem is_mandate_truth_table_witness :
    mandateReqExample.mandate_id ≠ none ∧
    mandateReqExample.is_mandate = some MandateTxnType.RecurringMandateTxn :=
  ⟨by simp [mandateReqExample, PaymentsRequest.default],
   (is_mandate_truth_table mandateReqExample).2.2
     (by simp [mandateReqExample, PaymentsRequest.default])⟩

/-- C3: narrowing a payment identifier to an intent id returns the inner
string exactly on the `PaymentIntentId` variant, and on the
`ConnectorTransactionId` and `PaymentTxnId` variants fails with
`ValidationError::IncorrectValueProvided` on field `payment_id`, carrying
the printable note that an intent id was expected. -/
theorem get_payment_intent_id_spec :
    (∀ s, PaymentIdType.get_payment_intent_id (.PaymentIntentId s) = .ok s) ∧
    (∀ s, PaymentIdType.get_payment_intent_id (.ConnectorTransactionId s) =
      .error
        { error := .IncorrectValueProvided "payment_id"
          printables :=
            ["Expected payment intent ID but got connector transaction ID"] }) ∧
    (∀ s, PaymentIdType.get_payment_intent_id (.PaymentTxnId s) =
      .error
        { error := .IncorrectValueProvided "payment_id"
          printables :=
            ["Expected payment intent ID but got connector transaction ID"] }) :=
  ⟨fun _ => rfl, fun _ => rfl, fun _ => rfl⟩

/-- C4: a connector satisfies the aggregate `Payment` capability exactly
when it satisfies the common connector identity capability plus all four
per-operation capabilities, and for every proper subset obtained by
removing one of the five requirements there is a connector satisfying the
rest but not the aggregate. -/
theorem payment_aggregate_capability :
    (∀ c : Connector, Payment c ↔
      ConnectorCommon c ∧ PaymentAuthorize c ∧ PaymentSync c ∧
        PaymentCapture c ∧ PaymentVoid c) ∧
    (∃ c : Connector, ConnectorCommon c ∧ PaymentSync c ∧ PaymentCapture c ∧
      PaymentVoid c ∧ ¬PaymentAuthorize c ∧ ¬Payment c) ∧
    (∃ c : Connector, ConnectorCommon c ∧ PaymentAuthorize c ∧
      PaymentCapture c ∧ PaymentVoid c ∧ ¬PaymentSync c ∧ ¬Payment c) ∧
    (∃ c : Connector, ConnectorCommon c ∧ PaymentAuthorize c ∧
      PaymentSync c ∧ PaymentVoid c ∧ ¬PaymentCapture c ∧ ¬Payment c) ∧
    (∃ c : Connector, ConnectorCommon c ∧ PaymentAuthorize c ∧
      PaymentSync c ∧ PaymentCapture c ∧ ¬PaymentVoid c ∧ ¬Payment c) ∧
    (∃ c : Connector, PaymentAuthorize c ∧ PaymentSync c ∧
      PaymentCapture c ∧ PaymentVoid c ∧ ¬ConnectorCommon c ∧ ¬Payment c) :=
  by
  refine ⟨fun _ => Iff.rfl,
    ⟨⟨fun op _ _ => op != .Authorize, true⟩, ?_⟩,
    ⟨⟨fun op _ _ => op != .PSync, true⟩, ?_⟩,
    ⟨⟨fun op _ _ => op != .PCapture, true⟩, ?_⟩,
    ⟨⟨fun op _ _ => op != .Void, true⟩, ?_⟩,
    ⟨⟨fun _ _ _ => true, false⟩, ?_⟩⟩ <;>
  · simp only [Payment, ConnectorCommon, PaymentAuthorize, PaymentSync,
      PaymentCapture, PaymentVoid]
    decide

/-- C5: serializing any payment identifier variant and deserializing the
result reproduces the original tag and payload exactly. -/
theorem paymentIdType_serde_roundtrip (x : PaymentIdType) :
    PaymentIdType.fromJson (PaymentIdType.toJson x) = some x := by
  cases x <;> rfl

/-- C8: the default value of the payment identifier variant type is the
`PaymentIntentId` form carrying the empty string. -/
theorem paymentIdType_default_intent_empty :
    PaymentIdType.default = PaymentIdType.PaymentIntentId "" :=
  rfl

/-- C6: for every card whose number has at least four characters, the
card response projection yields exactly the last four characters of the
number as `last4` together with the expiry month and year, and the
response does not depend on the holder name, the cvc, or anything of the
number beyond its last four characters. -/
theorem ccard_response_projection (card : CCard)
    (h : 4 ≤ card.card_number.peek.length) :
    CCardResponse.fromCard card =
      some { last4 := lastFourChars card.card_number.peek
             exp_month := card.card_exp_month.peek
             exp_year := card.card_exp_year.peek } ∧
    ∀ num name cvc : Secret String,
      4 ≤ num.peek.length →
      lastFourChars num.peek = lastFourChars card.card_number.peek →
      CCardResponse.fromCard
          { card_number := num, card_exp_month := card.card_exp_month
            card_exp_year := card.card_exp_year, card_holder_name := name
            card_cvc := cvc }
        = CCardResponse.fromCard card := by
  refine ⟨fromCard_eval card h, fun num name cvc h4 hlast => ?_⟩
  rw [fromCard_eval card h, fromCard_eval _ h4, hlast]

/-- Witness for C6: the sample sixteen-digit card of the source test
module satisfies the length bound and projects to last4 "4321" with its
expiry. -/
theorem ccard_response_projection_witness :
    4 ≤ cardExample.card_number.peek.length ∧
    (CCardResponse.fromCard cardExample =
      some { last4 := lastFourChars cardExample.card_number.peek
             exp_month := cardExample.card_exp_month.peek
             exp_year := cardExample.card_exp_year.peek } ∧
    ∀ num name cvc : Secret String,
      4 ≤ num.peek.length →
      lastFourChars num.peek = lastFourChars cardExample.card_number.peek →
      CCardResponse.fromCard
          { card_number := num, card_exp_month := cardExample.card_exp_month
            card_exp_year := cardExample.card_exp_year
            card_holder_name := name, card_cvc := cvc }
        = CCardResponse.fromCard cardExample) :=
  ⟨by decide, ccard_response_projection cardExample (by decide)⟩

/-- C9: on a card whose number has fewer than four characters the
projection has no result: the Rust slice index underflows and the
conversion panics, modelled as `none`. -/
theorem ccard_response_short_number (card : CCard)
    (h : card.card_number.peek.length < 4) :
    CCardResponse.fromCard card = none := by
  have h4 : card.card_number.peek.data.length < 4 := h
  unfold CCardResponse.fromCard
  rw [if_neg (Nat.not_le.mpr h4)]

/-- Witness for C9: a three-character card number makes the projection
panic. -/
theorem ccard_response_short_number_witness :
    shortCardExample.card_number.peek.length < 4 ∧
    CCardResponse.fromCard shortCardExample = none :=
  ⟨by decide, ccard_response_short_number shortCardExample (by decide)⟩

/-- C7: deserializing payment list constraints from an input in which
the `limit` field is omitted yields a constraints value whose limit is
ten. -/
theorem list_constraints_default_limit (fields : List (String × Json))
    (hkey : "limit" ∉ fields.map Prod.fst) (c : PaymentListConstraints)
    (h : deserializePaymentListConstraints fields = some c) :
    c.limit = 10 := by
  unfold deserializePaymentListConstraints at h
  rw [findField_eq_none "limit" fields hkey] at h
  split at h
  · simp only [Option.bind_eq_some', parseLimit, Option.some.injEq] at h
    obtain ⟨a1, -, a2, -, a3, -, l, hl, a5, -, a6, -, a7, -, a8, -, a9, -, hc⟩ := h
    subst hl
    subst hc
    rfl
  · exact Option.noConfusion h

/-- Witness for C7: the empty input omits `limit` and deserializes to
the all-default constraints with limit ten. -/
theorem list_constraints_default_limit_witness :
    "limit" ∉ (([] : List (String × Json)).map Prod.fst) ∧
    deserializePaymentListConstraints [] =
      some { customer_id := none, starting_after := none
             ending_before := none, limit := 10, created := none
             created_lt := none, created_gt := none, created_lte := none
             created_gte := none } ∧
    PaymentListConstraints.limit
        { customer_id := none, starting_after := none, ending_before := none
          limit := 10, created := none, created_lt := none
          created_gt := none, created_lte := none, created_gte := none }
      = 10 :=
  ⟨by simp, by decide,
   list_constraints_default_limit [] (by simp) _ (by decide)⟩

/-- C10: converting a payments request or a retrieve request into a
payments response populates `payment_id` with the inner string exactly
when the identifier is the `PaymentIntentId` variant; for the other
variants, or an absent identifier, the response `payment_id` is `None`
and the payload of the other identifier does not influence the response
at all. -/
theorem response_payment_id_projection :
    (∀ (r : PaymentsRequest) (id : String) (resp : PaymentsResponse),
      r.payment_id = some (.PaymentIntentId id) →
      PaymentsResponse.fromRequest r = some resp →
      resp.payment_id = some id) ∧
    (∀ (r : PaymentsRequest) (resp : PaymentsResponse),
      (∀ id, r.payment_id ≠ some (.PaymentIntentId id)) →
      PaymentsResponse.fromRequest r = some resp →
      resp.payment_id = none) ∧
    (∀ (r : PaymentsRetrieveRequest) (id : String),
      r.resource_id = .PaymentIntentId id →
      (PaymentsResponse.fromRetrieveRequest r).payment_id = some id) ∧
    (∀ r : PaymentsRetrieveRequest,
      (∀ id, r.resource_id ≠ .PaymentIntentId id) →
      (PaymentsResponse.fromRetrieveRequest r).payment_id = none) ∧
    (∀ (r : PaymentsRequest) (s t : String),
      PaymentsResponse.fromRequest
          { r with payment_id := some (.ConnectorTransactionId s) } =
        PaymentsResponse.fromRequest
          { r with payment_id := some (.ConnectorTransactionId t) }) ∧
    (∀ (r : PaymentsRequest) (s t : String),
      PaymentsResponse.fromRequest
          { r with payment_id := some (.PaymentTxnId s) } =
        PaymentsResponse.fromRequest
          { r with payment_id := some (.PaymentTxnId t) }) := by
  refine ⟨?_, ?_, ?_, ?_, fun r s t => rfl, fun r s t => rfl⟩
  · intro r id resp hid h
    unfold PaymentsResponse.fromRequest at h
    simp only [Option.bind_eq_some', Option.some.injEq] at h
    obtain ⟨pmd, -, hresp⟩ := h
    subst hresp
    simp [hid]
  · intro r resp hne h
    unfold PaymentsResponse.fromRequest at h
    simp only [Option.bind_eq_some', Option.some.injEq] at h
    obtain ⟨pmd, -, hresp⟩ := h
    subst hresp
    rcases hp : r.payment_id with _ | pid
    · simp [hp]
    · cases pid with
      | PaymentIntentId id => exact absurd hp (hne id)
      | ConnectorTransactionId id => simp [hp]
      | PaymentTxnId id => simp [hp]
  · intro r id hid
    unfold PaymentsResponse.fromRetrieveRequest
    simp [hid]
  · intro r hne
    unfold PaymentsResponse.fromRetrieveRequest
    rcases hp : r.resource_id with id | id | id
    · exact absurd hp (hne id)
    · simp [hp]
    · simp [hp]

/-- Witness for C10: a retrieve request addressed by
`PaymentIntentId "pay_123"` converts to a response whose payment id is
that string. -/
theorem response_payment_id_projection_witness :
    retrieveReqExample.resource_id = PaymentIdType.PaymentIntentId "pay_123" ∧
    (PaymentsResponse.fromRetrieveRequest retrieveReqExample).payment_id
      = some "pay_123" :=
  ⟨rfl, response_payment_id_projection.2.2.1 retrieveReqExample "pay_123" rfl⟩

end Hyperswitch
